import Mathlib

/-!
Shallow embedding of the call-lifecycle logic of `src/daily_phone.py`
(classes `DialInHandler` and `DialOutHandler`).

Modelling conventions:
- The Python dict `dialout_setting` is a record of optional string fields
  (membership of a key corresponds to the field being `some _`).
- Calls made on the external transport (`start_dialout`,
  `capture_participant_transcription`) are recorded as values in an output
  list rather than performed as effects.
- A possible failure of `transport.start_dialout` is a boolean parameter
  `transport_fails`: when the call is made and the flag is true, the call
  raises, and the `except Exception` clause of `start` absorbs the raise.
- `StartResult.raised` records an exception propagating out of `start` to
  its caller; it is `none` in every branch because the only raise site sits
  inside the `try` block whose `except Exception` handler catches it.
- Logging is not modelled for the dial-out class (it never branches).
-/

structure DialoutSetting where
  phoneNumber : Option String
  callerId : Option String
  sipUri : Option String
deriving DecidableEq

/-- The dict passed to `transport.start_dialout`: either
`{phoneNumber}` / `{phoneNumber, callerId}` (the `callerId` option
distinguishes the two dict shapes) or `{sipUri}`. -/
inductive DialoutRequest where
  | phone (phoneNumber : String) (callerId : Option String)
  | sip (sipUri : String)
deriving DecidableEq

/-- Mutable state of a `DialOutHandler` instance (the `transport` field is
external and not modelled). `__init__` sets `attempt_count = 0` and
`status = "pending"`. -/
structure DialOutHandler where
  dialout_setting : DialoutSetting
  max_attempts : Nat
  attempt_count : Nat
  status : String
deriving DecidableEq

/-- Outcome of one call to `DialOutHandler.start`: the updated handler
state, the `start_dialout` requests issued to the transport during the
call, and the exception (if any) propagating to the caller. -/
structure StartResult where
  handler : DialOutHandler
  requests : List DialoutRequest
  raised : Option String
deriving DecidableEq

/-- `DialOutHandler.start` (src/daily_phone.py lines 92 to 128).
Increments `attempt_count`; if it now exceeds `max_attempts`, sets
`status = "failed"` and returns. Otherwise dials `phoneNumber` (with
`callerId` when present) if that key is set, `elif` dials `sipUri`.
When `transport_fails` is true the issued `start_dialout` call raises and
the `except Exception` clause sets `status = "failed"`; no exception
leaves `start`. -/
def DialOutHandler.start (h : DialOutHandler) (transport_fails : Bool) : StartResult :=
  if h.max_attempts < h.attempt_count + 1 then
    StartResult.mk { h with attempt_count := h.attempt_count + 1, status := "failed" } [] none
  else
    match h.dialout_setting.phoneNumber with
    | some pn =>
        if transport_fails then
          StartResult.mk { h with attempt_count := h.attempt_count + 1, status := "failed" }
            [DialoutRequest.phone pn h.dialout_setting.callerId] none
        else
          StartResult.mk { h with attempt_count := h.attempt_count + 1 }
            [DialoutRequest.phone pn h.dialout_setting.callerId] none
    | none =>
        match h.dialout_setting.sipUri with
        | some uri =>
            if transport_fails then
              StartResult.mk { h with attempt_count := h.attempt_count + 1, status := "failed" }
                [DialoutRequest.sip uri] none
            else
              StartResult.mk { h with attempt_count := h.attempt_count + 1 }
                [DialoutRequest.sip uri] none
        | none => StartResult.mk { h with attempt_count := h.attempt_count + 1 } [] none

/-- A request issued to the transport by the dial-out code: either a
`start_dialout` dict or a `capture_participant_transcription` call (whose
argument is `data.get("sessionId")`, hence optional). -/
inductive TransportReq where
  | dialout (r : DialoutRequest)
  | capture (sessionId : Option String)
deriving DecidableEq

/-- Handler for `on_dialout_connected`: sets `status = "connected"`. -/
def on_dialout_connected (h : DialOutHandler) : DialOutHandler × List TransportReq :=
  ({ h with status := "connected" }, [])

/-- Handler for `on_dialout_answered`: sets `status = "answered"` and
issues `capture_participant_transcription(data.get("sessionId"))`. -/
def on_dialout_answered (h : DialOutHandler) (sessionId : Option String) :
    DialOutHandler × List TransportReq :=
  ({ h with status := "answered" }, [TransportReq.capture sessionId])

/-- Handler for `on_dialout_stopped`: sets `status = "stopped"`. -/
def on_dialout_stopped (h : DialOutHandler) : DialOutHandler × List TransportReq :=
  ({ h with status := "stopped" }, [])

/-- Handler for `on_dialout_error`: sets `status = "failed"` then awaits
`self.start()` (the retry); `start` never raises, so the handler returns
the state left by `start` together with the requests it issued. -/
def on_dialout_error (h : DialOutHandler) (transport_fails : Bool) :
    DialOutHandler × List TransportReq :=
  let h1 : DialOutHandler := { h with status := "failed" }
  let r := h1.start transport_fails
  (r.handler, r.requests.map TransportReq.dialout)

/-- Handler for `on_dialout_warning`: logs only. -/
def on_dialout_warning (h : DialOutHandler) : DialOutHandler × List TransportReq :=
  (h, [])

/-- One step of the environment driving a `DialOutHandler`: either an
external call to `start()` or the delivery of one transport event. The
boolean on `invoke` and `error` says whether the `start_dialout` call made
during that step (if any) raises. -/
inductive DialoutAction where
  | invoke (transport_fails : Bool)
  | connected
  | answered (sessionId : Option String)
  | stopped
  | error (transport_fails : Bool)
  | warning
deriving DecidableEq

def stepAction (h : DialOutHandler) : DialoutAction → DialOutHandler × List TransportReq
  | DialoutAction.invoke b => ((h.start b).handler, (h.start b).requests.map TransportReq.dialout)
  | DialoutAction.connected => on_dialout_connected h
  | DialoutAction.answered sid => on_dialout_answered h sid
  | DialoutAction.stopped => on_dialout_stopped h
  | DialoutAction.error b => on_dialout_error h b
  | DialoutAction.warning => on_dialout_warning h

/-- Run a sequence of actions, accumulating all transport requests. -/
def runActions (h : DialOutHandler) : List DialoutAction → DialOutHandler × List TransportReq
  | [] => (h, [])
  | a :: rest =>
      let s := stepAction h a
      let r := runActions s.1 rest
      (r.1, s.2 ++ r.2)

/-- Number of `start_dialout` requests in a transport-request list. -/
def countDialout : List TransportReq → Nat
  | [] => 0
  | TransportReq.dialout _ :: rest => countDialout rest + 1
  | TransportReq.capture _ :: rest => countDialout rest

/-- The scenario of spec section 8, first property: a fresh handler with
`max_attempts = N`, one external `start()` call, then one dial-out error
event (which re-invokes `start()`) per failed attempt, `N` in all. -/
def retryScenario (s : DialoutSetting) (N : Nat) : DialOutHandler × List TransportReq :=
  runActions (DialOutHandler.mk s N 0 "pending")
    (DialoutAction.invoke false :: List.replicate N (DialoutAction.error false))

/-!
Dial-in side. `DialInHandler` keeps no mutable state; each event handler
is a function from the event payload to the list of effects it performs.
-/

/-- An effect performed by a dial-in event handler. `raiseValue v` is the
Python statement `raise (v)` applied to a bare string, which is not an
exception object. `cancelTask` is the session-cancel operation
`self.task.cancel()` (present in the source only as a comment). -/
inductive DialinEffect where
  | logged (msg : String)
  | raiseValue (v : String)
  | cancelTask
  | captureTranscription (participantId : String)
deriving DecidableEq

/-- Handler for `on_dialin_error` (src/daily_phone.py lines 44 to 50):
logs, then executes `raise ("Call Error")`. The cancel call is commented
out in the source, so no `cancelTask` effect occurs. -/
def on_dialin_error (data : String) : List DialinEffect :=
  [DialinEffect.logged ("Dial-in error: " ++ data), DialinEffect.raiseValue "Call Error"]

/-- Handler for `on_first_participant_joined`: captures the transcription
of the joined participant. -/
def on_first_participant_joined (participantId : String) : List DialinEffect :=
  [DialinEffect.logged participantId, DialinEffect.captureTranscription participantId]

/-- Number of session-cancel operations in an effect list. -/
def countCancel : List DialinEffect → Nat
  | [] => 0
  | DialinEffect.cancelTask :: rest => countCancel rest + 1
  | _ :: rest => countCancel rest

/-!
Helper lemmas about `DialOutHandler.start`.
-/

theorem start_attempt_count (h : DialOutHandler) (b : Bool) :
    (h.start b).handler.attempt_count = h.attempt_count + 1 := by
  unfold DialOutHandler.start
  split
  · rfl
  · split
    · split <;> rfl
    · split
      · split <;> rfl
      · rfl

theorem start_max_attempts (h : DialOutHandler) (b : Bool) :
    (h.start b).handler.max_attempts = h.max_attempts := by
  unfold DialOutHandler.start
  split
  · rfl
  · split
    · split <;> rfl
    · split
      · split <;> rfl
      · rfl

theorem start_dialout_setting (h : DialOutHandler) (b : Bool) :
    (h.start b).handler.dialout_setting = h.dialout_setting := by
  unfold DialOutHandler.start
  split
  · rfl
  · split
    · split <;> rfl
    · split
      · split <;> rfl
      · rfl

theorem start_raised_none (h : DialOutHandler) (b : Bool) :
    (h.start b).raised = none := by
  unfold DialOutHandler.start
  split
  · rfl
  · split
    · split <;> rfl
    · split
      · split <;> rfl
      · rfl

theorem start_requests_length_le (h : DialOutHandler) (b : Bool) :
    (h.start b).requests.length ≤ 1 := by
  unfold DialOutHandler.start
  split
  · simp
  · split
    · split <;> simp
    · split
      · split <;> simp
      · simp

theorem start_over (h : DialOutHandler) (b : Bool) (hov : h.max_attempts ≤ h.attempt_count) :
    h.start b =
      StartResult.mk { h with attempt_count := h.attempt_count + 1, status := "failed" } [] none := by
  unfold DialOutHandler.start
  rw [if_pos (by omega)]

theorem start_false_handler (h : DialOutHandler) (hb : h.attempt_count < h.max_attempts) :
    (h.start false).handler = { h with attempt_count := h.attempt_count + 1 } := by
  unfold DialOutHandler.start
  rw [if_neg (by omega)]
  split
  · rfl
  · split
    · rfl
    · rfl

theorem start_phone (h : DialOutHandler) (b : Bool) (pn : String)
    (hb : h.attempt_count < h.max_attempts) (hp : h.dialout_setting.phoneNumber = some pn) :
    (h.start b).requests = [DialoutRequest.phone pn h.dialout_setting.callerId] := by
  unfold DialOutHandler.start
  rw [if_neg (by omega), hp]
  cases b <;> rfl

theorem start_sip (h : DialOutHandler) (b : Bool) (u : String)
    (hb : h.attempt_count < h.max_attempts) (hp : h.dialout_setting.phoneNumber = none)
    (hs : h.dialout_setting.sipUri = some u) :
    (h.start b).requests = [DialoutRequest.sip u] := by
  unfold DialOutHandler.start
  rw [if_neg (by omega), hp, hs]
  cases b <;> rfl

theorem start_no_dest (h : DialOutHandler) (b : Bool)
    (hb : h.attempt_count < h.max_attempts) (hp : h.dialout_setting.phoneNumber = none)
    (hs : h.dialout_setting.sipUri = none) :
    h.start b = StartResult.mk { h with attempt_count := h.attempt_count + 1 } [] none := by
  unfold DialOutHandler.start
  rw [if_neg (by omega), hp, hs]

theorem start_requests_one (h : DialOutHandler) (b : Bool)
    (hb : h.attempt_count < h.max_attempts)
    (hd : h.dialout_setting.phoneNumber.isSome ∨ h.dialout_setting.sipUri.isSome) :
    (h.start b).requests.length = 1 := by
  rcases hd with hd | hd
  · rcases Option.isSome_iff_exists.mp hd with ⟨pn, hp⟩
    rw [start_phone h b pn hb hp]
    rfl
  · cases hp : h.dialout_setting.phoneNumber with
    | some pn => rw [start_phone h b pn hb hp]; rfl
    | none =>
        rcases Option.isSome_iff_exists.mp hd with ⟨u, hs⟩
        rw [start_sip h b u hb hp hs]
        rfl

theorem start_status_cases (h : DialOutHandler) (b : Bool) :
    (h.start b).handler.status = h.status ∨ (h.start b).handler.status = "failed" := by
  unfold DialOutHandler.start
  split
  · right; rfl
  · split
    · split
      · right; rfl
      · left; rfl
    · split
      · split
        · right; rfl
        · left; rfl
      · left; rfl

theorem start_status_fails (h : DialOutHandler) (hb : h.attempt_count < h.max_attempts)
    (hd : h.dialout_setting.phoneNumber.isSome ∨ h.dialout_setting.sipUri.isSome) :
    (h.start true).handler.status = "failed" := by
  unfold DialOutHandler.start
  rw [if_neg (by omega)]
  cases hp : h.dialout_setting.phoneNumber with
  | some pn => rfl
  | none =>
      cases hs : h.dialout_setting.sipUri with
      | some u => rfl
      | none =>
          exfalso
          rcases hd with hd | hd
          · rw [hp] at hd; simp at hd
          · rw [hs] at hd; simp at hd

/-!
Counting lemmas and the request-budget invariant.
-/

theorem countDialout_append (a b : List TransportReq) :
    countDialout (a ++ b) = countDialout a + countDialout b := by
  induction a with
  | nil => simp [countDialout]
  | cons x rest ih =>
      cases x <;> simp [countDialout, ih]
      omega

theorem countDialout_map (l : List DialoutRequest) :
    countDialout (l.map TransportReq.dialout) = l.length := by
  induction l with
  | nil => rfl
  | cons x rest ih => simp [countDialout, ih]

/-- Dial-out attempts still available to a handler. -/
def remainingBudget (h : DialOutHandler) : Nat :=
  h.max_attempts - h.attempt_count

theorem step_budget (h : DialOutHandler) (a : DialoutAction) :
    countDialout (stepAction h a).2 + remainingBudget (stepAction h a).1 ≤
      remainingBudget h := by
  cases a with
  | invoke b =>
      simp only [stepAction, remainingBudget, countDialout_map, start_attempt_count,
        start_max_attempts]
      rcases Nat.lt_or_ge h.attempt_count h.max_attempts with hc | hc
      · have := start_requests_length_le h b
        omega
      · rw [start_over h b hc]
        simp only [List.length_nil]
        omega
  | connected => simp [stepAction, on_dialout_connected, countDialout, remainingBudget]
  | answered sid => simp [stepAction, on_dialout_answered, countDialout, remainingBudget]
  | stopped => simp [stepAction, on_dialout_stopped, countDialout, remainingBudget]
  | error b =>
      simp only [stepAction, on_dialout_error, remainingBudget, countDialout_map,
        start_attempt_count, start_max_attempts]
      rcases Nat.lt_or_ge h.attempt_count h.max_attempts with hc | hc
      · have := start_requests_length_le { h with status := "failed" } b
        omega
      · rw [start_over { h with status := "failed" } b hc]
        simp only [List.length_nil]
        omega
  | warning => simp [stepAction, on_dialout_warning, countDialout, remainingBudget]

theorem runActions_budget (h : DialOutHandler) (acts : List DialoutAction) :
    countDialout (runActions h acts).2 ≤ remainingBudget h := by
  induction acts generalizing h with
  | nil => simp [runActions, countDialout]
  | cons a rest ih =>
      simp only [runActions, countDialout_append]
      have h1 := step_budget h a
      have h2 := ih (stepAction h a).1
      omega

/-- One dial-out error event within the attempt budget: the retried
`start` increments the count, leaves `status = "failed"`, and issues
exactly one `start_dialout` request. -/
theorem error_step_within (h : DialOutHandler) (hb : h.attempt_count < h.max_attempts)
    (hd : h.dialout_setting.phoneNumber.isSome ∨ h.dialout_setting.sipUri.isSome) :
    (on_dialout_error h false).1 =
      DialOutHandler.mk h.dialout_setting h.max_attempts (h.attempt_count + 1) "failed" ∧
    countDialout (on_dialout_error h false).2 = 1 := by
  have hbb : ({ h with status := "failed" } : DialOutHandler).attempt_count <
      ({ h with status := "failed" } : DialOutHandler).max_attempts := hb
  constructor
  · show (DialOutHandler.start { h with status := "failed" } false).handler = _
    rw [start_false_handler _ hbb]
  · show countDialout
        ((DialOutHandler.start { h with status := "failed" } false).requests.map
          TransportReq.dialout) = 1
    rw [countDialout_map]
    exact start_requests_one _ false hbb hd

/-- One dial-out error event at or beyond the attempt budget: the retried
`start` increments the count past the bound and issues no request. -/
theorem error_step_over (h : DialOutHandler) (b : Bool)
    (hov : h.max_attempts ≤ h.attempt_count) :
    on_dialout_error h b =
      (DialOutHandler.mk h.dialout_setting h.max_attempts (h.attempt_count + 1) "failed", []) := by
  show ((DialOutHandler.start { h with status := "failed" } b).handler,
      (DialOutHandler.start { h with status := "failed" } b).requests.map TransportReq.dialout) = _
  rw [start_over _ b
    (show ({ h with status := "failed" } : DialOutHandler).max_attempts ≤
        ({ h with status := "failed" } : DialOutHandler).attempt_count from hov)]
  rfl

/-- Running exactly enough dial-out error events to cross the attempt
budget: from `attempt_count + k = max_attempts + 1` (k at least 1), the
first `k - 1` error events each issue one retry request, the last one
exceeds the budget and issues none. -/
theorem run_error_exhaust : ∀ (k : Nat) (h : DialOutHandler),
    h.dialout_setting.phoneNumber.isSome ∨ h.dialout_setting.sipUri.isSome →
    h.attempt_count + k = h.max_attempts + 1 → 1 ≤ k →
    countDialout (runActions h (List.replicate k (DialoutAction.error false))).2 + 1 = k ∧
    (runActions h (List.replicate k (DialoutAction.error false))).1.status = "failed" ∧
    (runActions h (List.replicate k (DialoutAction.error false))).1.attempt_count =
      h.max_attempts + 1 ∧
    (runActions h (List.replicate k (DialoutAction.error false))).1.max_attempts =
      h.max_attempts := by
  intro k
  induction k with
  | zero => intro h _ _ hk; omega
  | succ k ih =>
      intro h hd hcount _
      rw [List.replicate_succ]
      simp only [runActions, stepAction]
      by_cases hk0 : k = 0
      · subst hk0
        rw [error_step_over h false (by omega)]
        simp [runActions, countDialout]
        omega
      · have hb : h.attempt_count < h.max_attempts := by omega
        have hk1 : 1 ≤ k := Nat.one_le_iff_ne_zero.mpr hk0
        obtain ⟨e1, e2⟩ := error_step_within h hb hd
        rw [e1, countDialout_append, e2]
        obtain ⟨ih1, ih2, ih3, ih4⟩ :=
          ih (DialOutHandler.mk h.dialout_setting h.max_attempts (h.attempt_count + 1) "failed")
            hd (by show h.attempt_count + 1 + k = h.max_attempts + 1; omega) hk1
        exact ⟨by omega, ih2, ih3, ih4⟩

/-- An external `start()` call within the attempt budget: the count is
incremented, `status` is unchanged, and exactly one `start_dialout`
request is issued. -/
theorem invoke_step_within (h : DialOutHandler) (hb : h.attempt_count < h.max_attempts)
    (hd : h.dialout_setting.phoneNumber.isSome ∨ h.dialout_setting.sipUri.isSome) :
    (stepAction h (DialoutAction.invoke false)).1 =
      DialOutHandler.mk h.dialout_setting h.max_attempts (h.attempt_count + 1) h.status ∧
    countDialout (stepAction h (DialoutAction.invoke false)).2 = 1 := by
  constructor
  · show (h.start false).handler = _
    rw [start_false_handler _ hb]
  · show countDialout ((h.start false).requests.map TransportReq.dialout) = 1
    rw [countDialout_map]
    exact start_requests_one _ false hb hd

/-!
Claim theorems.
-/

/-- C1: for every `max_attempts = N` with `N ≥ 1` and a dialable setting,
starting a fresh handler and re-invoking `start()` once per simulated
transport error issues exactly `N` `start_dialout` requests, leaves
`status = "failed"`, and a further `start()` call issues no request. -/
theorem C1_exact_attempts (N : Nat) (hN : 1 ≤ N) (s : DialoutSetting)
    (hd : s.phoneNumber.isSome ∨ s.sipUri.isSome) :
    countDialout (retryScenario s N).2 = N ∧
    (retryScenario s N).1.status = "failed" ∧
    ((retryScenario s N).1.start false).requests = [] := by
  unfold retryScenario
  simp only [runActions]
  obtain ⟨i1, i2⟩ := invoke_step_within (DialOutHandler.mk s N 0 "pending") hN hd
  have i1n : (stepAction (DialOutHandler.mk s N 0 "pending") (DialoutAction.invoke false)).1 =
      DialOutHandler.mk s N 1 "pending" := i1
  rw [i1n, countDialout_append, i2]
  obtain ⟨r1, r2, r3, r4⟩ :=
    run_error_exhaust N (DialOutHandler.mk s N 1 "pending") hd
      (by show 1 + N = N + 1; omega) hN
  have r3n :
      (runActions (DialOutHandler.mk s N 1 "pending")
        (List.replicate N (DialoutAction.error false))).1.attempt_count = N + 1 := r3
  have r4n :
      (runActions (DialOutHandler.mk s N 1 "pending")
        (List.replicate N (DialoutAction.error false))).1.max_attempts = N := r4
  refine ⟨by omega, r2, ?_⟩
  rw [start_over _ false (by omega)]

/-- Witness for C1 at `N = 2` with a phone-number setting. -/
theorem C1_exact_attempts_witness :
    countDialout (retryScenario (DialoutSetting.mk (some "+1555") none none) 2).2 = 2 ∧
    (retryScenario (DialoutSetting.mk (some "+1555") none none) 2).1.status = "failed" ∧
    ((retryScenario (DialoutSetting.mk (some "+1555") none none) 2).1.start false).requests =
      [] :=
  C1_exact_attempts 2 (by decide) (DialoutSetting.mk (some "+1555") none none) (by decide)

/-- C2 as stated is false: with `max_attempts = 1`, three dial-out error
events delivered to a fresh handler drive `attempt_count` to 3, which
exceeds `max_attempts + 1 = 2`; the error handler re-invokes `start()`
even after the budget is exhausted. -/
theorem C2_counterexample :
    (runActions
        (DialOutHandler.mk (DialoutSetting.mk (some "+1555") none none) 1 0 "pending")
        [DialoutAction.error false, DialoutAction.error false,
          DialoutAction.error false]).1.attempt_count = 3 ∧
    ¬ (3 ≤ 1 + 1) := by
  decide

/-- C2 (amended): for every handler and every sequence of events and
`start()` invocations, the number of `start_dialout` requests issued never
exceeds `max_attempts - attempt_count`; in particular a fresh handler
never issues more than `max_attempts` requests and an exhausted handler
issues none, even though the error handler keeps re-invoking `start()`
(so `attempt_count` itself is unbounded). -/
theorem C2_request_budget (h : DialOutHandler) (acts : List DialoutAction) :
    countDialout (runActions h acts).2 ≤ h.max_attempts - h.attempt_count :=
  runActions_budget h acts

/-- C3 as stated is false: after a dial-out stopped event the status is
`"stopped"`, but a later dial-out error event still invokes `start()`
(the attempt count becomes 1) and issues a further `start_dialout`
request. -/
theorem C3_counterexample :
    (on_dialout_stopped
        (DialOutHandler.mk (DialoutSetting.mk (some "+1555") none none) 5 0 "pending")).1.status =
      "stopped" ∧
    (on_dialout_error
        (on_dialout_stopped
          (DialOutHandler.mk (DialoutSetting.mk (some "+1555") none none) 5 0 "pending")).1
        false).1.attempt_count = 1 ∧
    (on_dialout_error
        (on_dialout_stopped
          (DialOutHandler.mk (DialoutSetting.mk (some "+1555") none none) 5 0 "pending")).1
        false).2 = [TransportReq.dialout (DialoutRequest.phone "+1555" none)] := by
  decide

/-- C3 (amended): a dial-out stopped event sets `status = "stopped"` and
issues no request, but the stopped state is not sticky: a later dial-out
error event sets `status = "failed"`, invokes `start()` again, and within
the attempt budget (with a dialable setting) issues one further
`start_dialout` request. -/
theorem C3_stopped_then_error (h : DialOutHandler)
    (hb : h.attempt_count < h.max_attempts)
    (hd : h.dialout_setting.phoneNumber.isSome ∨ h.dialout_setting.sipUri.isSome) :
    (on_dialout_stopped h).1.status = "stopped" ∧
    (on_dialout_stopped h).2 = [] ∧
    (on_dialout_error (on_dialout_stopped h).1 false).1.status = "failed" ∧
    (on_dialout_error (on_dialout_stopped h).1 false).1.attempt_count =
      h.attempt_count + 1 ∧
    countDialout (on_dialout_error (on_dialout_stopped h).1 false).2 = 1 := by
  obtain ⟨e1, e2⟩ := error_step_within (on_dialout_stopped h).1 hb hd
  refine ⟨rfl, rfl, ?_, ?_, e2⟩
  · rw [e1]
  · rw [e1]
    rfl

/-- Witness for C3 (amended) on a concrete connected handler. -/
theorem C3_stopped_then_error_witness :
    (on_dialout_stopped
        (DialOutHandler.mk (DialoutSetting.mk none none (some "sip:x@y")) 5 1 "connected")).1.status =
      "stopped" ∧
    (on_dialout_stopped
        (DialOutHandler.mk (DialoutSetting.mk none none (some "sip:x@y")) 5 1 "connected")).2 =
      [] ∧
    (on_dialout_error
        (on_dialout_stopped
          (DialOutHandler.mk (DialoutSetting.mk none none (some "sip:x@y")) 5 1 "connected")).1
        false).1.status = "failed" ∧
    (on_dialout_error
        (on_dialout_stopped
          (DialOutHandler.mk (DialoutSetting.mk none none (some "sip:x@y")) 5 1 "connected")).1
        false).1.attempt_count = 1 + 1 ∧
    countDialout
      (on_dialout_error
        (on_dialout_stopped
          (DialOutHandler.mk (DialoutSetting.mk none none (some "sip:x@y")) 5 1 "connected")).1
        false).2 = 1 :=
  C3_stopped_then_error
    (DialOutHandler.mk (DialoutSetting.mk none none (some "sip:x@y")) 5 1 "connected")
    (by decide) (by decide)

/-- C4: at a dial-in error event the handler performs no session-cancel
operation and executes `raise ("Call Error")`, raising the bare string
value `"Call Error"`, which is not an exception object. The claimed
behavior (cancel exactly once, no non-exception raise) is the documented
intent; the code contradicts it. -/
theorem C4_dialin_error_defect :
    countCancel (on_dialin_error "err") = 0 ∧
    DialinEffect.raiseValue "Call Error" ∈ on_dialin_error "err" := by
  decide

/-- C5: when the handler is within the attempt budget, the setting is
dialable, and the issued `start_dialout` call raises, `start()` sets
`status = "failed"` and returns normally (no exception reaches the
caller). -/
theorem C5_failure_absorbed (h : DialOutHandler)
    (hb : h.attempt_count < h.max_attempts)
    (hd : h.dialout_setting.phoneNumber.isSome ∨ h.dialout_setting.sipUri.isSome) :
    (h.start true).handler.status = "failed" ∧ (h.start true).raised = none :=
  ⟨start_status_fails h hb hd, start_raised_none h true⟩

/-- Witness for C5 on a concrete pending handler. -/
theorem C5_failure_absorbed_witness :
    ((DialOutHandler.mk (DialoutSetting.mk (some "+1555") none none) 5 0 "pending").start
        true).handler.status = "failed" ∧
    ((DialOutHandler.mk (DialoutSetting.mk (some "+1555") none none) 5 0 "pending").start
        true).raised = none :=
  C5_failure_absorbed (DialOutHandler.mk (DialoutSetting.mk (some "+1555") none none) 5 0 "pending")
    (by decide) (by decide)

/-- C6: within the attempt budget, the spec example settings produce
exactly the corresponding single `start_dialout` request: phone number
plus caller id when both are present, only the SIP URI when only it is. -/
theorem C6_request_forms (h : DialOutHandler) (b : Bool)
    (hb : h.attempt_count < h.max_attempts) :
    (h.dialout_setting = DialoutSetting.mk (some "+1555") (some "+1999") none →
      (h.start b).requests = [DialoutRequest.phone "+1555" (some "+1999")]) ∧
    (h.dialout_setting = DialoutSetting.mk none none (some "sip:x@y") →
      (h.start b).requests = [DialoutRequest.sip "sip:x@y"]) := by
  constructor
  · intro hs
    rw [start_phone h b "+1555" hb (by rw [hs]), hs]
  · intro hs
    exact start_sip h b "sip:x@y" hb (by rw [hs]) (by rw [hs])

/-- Witness for C6: both request forms at concrete handlers. -/
theorem C6_request_forms_witness :
    ((DialOutHandler.mk (DialoutSetting.mk (some "+1555") (some "+1999") none) 5 0
        "pending").start false).requests = [DialoutRequest.phone "+1555" (some "+1999")] ∧
    ((DialOutHandler.mk (DialoutSetting.mk none none (some "sip:x@y")) 5 0
        "pending").start false).requests = [DialoutRequest.sip "sip:x@y"] :=
  ⟨(C6_request_forms
      (DialOutHandler.mk (DialoutSetting.mk (some "+1555") (some "+1999") none) 5 0 "pending")
      false (by decide)).1 rfl,
   (C6_request_forms
      (DialOutHandler.mk (DialoutSetting.mk none none (some "sip:x@y")) 5 0 "pending")
      false (by decide)).2 rfl⟩

/-- C7: a dial-out answered event with session id `"abc"` sets
`status = "answered"` and issues exactly one transcription-capture
request keyed by `"abc"`. -/
theorem C7_answered_capture (h : DialOutHandler) :
    (runActions h [DialoutAction.answered (some "abc")]).1.status = "answered" ∧
    (runActions h [DialoutAction.answered (some "abc")]).2 =
      [TransportReq.capture (some "abc")] := by
  constructor
  · rfl
  · show [TransportReq.capture (some "abc")] ++ [] = _
    rfl

/-- C8: from any state, a dial-out error event leaves `status = "failed"`
and invokes `start()` again (the attempt count increments); past the
attempt budget the retry issues no request, within it (with a dialable
setting) it issues exactly one. -/
theorem C8_error_retries (h : DialOutHandler) (b : Bool) :
    (on_dialout_error h b).1.status = "failed" ∧
    (on_dialout_error h b).1.attempt_count = h.attempt_count + 1 ∧
    (h.max_attempts < h.attempt_count + 1 → (on_dialout_error h b).2 = []) ∧
    (h.attempt_count < h.max_attempts →
      h.dialout_setting.phoneNumber.isSome ∨ h.dialout_setting.sipUri.isSome →
      countDialout (on_dialout_error h b).2 = 1) := by
  refine ⟨?_, ?_, ?_, ?_⟩
  · show (DialOutHandler.start { h with status := "failed" } b).handler.status = "failed"
    rcases start_status_cases { h with status := "failed" } b with hc | hc
    · exact hc
    · exact hc
  · exact start_attempt_count { h with status := "failed" } b
  · intro hov
    show (DialOutHandler.start { h with status := "failed" } b).requests.map
        TransportReq.dialout = []
    rw [start_over _ b
      (show ({ h with status := "failed" } : DialOutHandler).max_attempts ≤
          ({ h with status := "failed" } : DialOutHandler).attempt_count from by
        show h.max_attempts ≤ h.attempt_count; omega)]
    rfl
  · intro hb hd
    show countDialout
        ((DialOutHandler.start { h with status := "failed" } b).requests.map
          TransportReq.dialout) = 1
    rw [countDialout_map]
    exact start_requests_one _ b hb hd

/-- Witness for C8 on an exhausted handler (budget already spent). -/
theorem C8_error_retries_witness :
    (on_dialout_error
        (DialOutHandler.mk (DialoutSetting.mk (some "+1555") none none) 1 5 "answered")
        false).1.status = "failed" ∧
    (on_dialout_error
        (DialOutHandler.mk (DialoutSetting.mk (some "+1555") none none) 1 5 "answered")
        false).1.attempt_count = 5 + 1 ∧
    (on_dialout_error
        (DialOutHandler.mk (DialoutSetting.mk (some "+1555") none none) 1 5 "answered")
        false).2 = [] :=
  ⟨(C8_error_retries
      (DialOutHandler.mk (DialoutSetting.mk (some "+1555") none none) 1 5 "answered") false).1,
   (C8_error_retries
      (DialOutHandler.mk (DialoutSetting.mk (some "+1555") none none) 1 5 "answered") false).2.1,
   (C8_error_retries
      (DialOutHandler.mk (DialoutSetting.mk (some "+1555") none none) 1 5 "answered")
      false).2.2.1 (by decide)⟩

/-- C9: within the attempt budget, `start()` on a setting with neither
`phoneNumber` nor `sipUri` increments the attempt count, issues no
request, raises nothing, and leaves `status` unchanged. -/
theorem C9_no_destination (h : DialOutHandler) (b : Bool)
    (hb : h.attempt_count < h.max_attempts)
    (hp : h.dialout_setting.phoneNumber = none)
    (hs : h.dialout_setting.sipUri = none) :
    h.start b = StartResult.mk { h with attempt_count := h.attempt_count + 1 } [] none := by
  unfold DialOutHandler.start
  rw [if_neg (by omega), hp, hs]

/-- Witness for C9 on a concrete connected handler with an empty
setting. -/
theorem C9_no_destination_witness :
    (DialOutHandler.mk (DialoutSetting.mk none none none) 5 2 "connected").start true =
      StartResult.mk (DialOutHandler.mk (DialoutSetting.mk none none none) 5 3 "connected")
        [] none :=
  C9_no_destination (DialOutHandler.mk (DialoutSetting.mk none none none) 5 2 "connected")
    true (by decide) rfl rfl

/-- C10: within the attempt budget, a setting holding both `phoneNumber`
and `sipUri` produces only the phone-number-form request; the `elif` for
`sipUri` is never reached. -/
theorem C10_phone_precedence (h : DialOutHandler) (b : Bool) (pn u : String)
    (hb : h.attempt_count < h.max_attempts)
    (hp : h.dialout_setting.phoneNumber = some pn)
    (_hs : h.dialout_setting.sipUri = some u) :
    (h.start b).requests = [DialoutRequest.phone pn h.dialout_setting.callerId] :=
  start_phone h b pn hb hp

/-- Witness for C10 on a setting with both destination forms present. -/
theorem C10_phone_precedence_witness :
    ((DialOutHandler.mk (DialoutSetting.mk (some "+1555") none (some "sip:x@y")) 5 0
        "pending").start false).requests = [DialoutRequest.phone "+1555" none] :=
  C10_phone_precedence
    (DialOutHandler.mk (DialoutSetting.mk (some "+1555") none (some "sip:x@y")) 5 0 "pending")
    false "+1555" "sip:x@y" (by decide) rfl rfl
